import Mathlib

/-!
# Verification of the Fabric MCP server (`fabric.py`)

A shallow embedding of the single-file MCP server.  Python values that flow
through the handlers (JSON request/response bodies, token payloads, tool
result dictionaries) are modelled by `JVal`; raised Python exceptions by
`PyError`; the `requests` transport by explicit `HttpResponse` inputs
(one for the identity endpoint, one function `HttpRequest → HttpResponse`
for the upstream API).  Every handler returns an `Outcome`: the value
returned (or the exception propagated) together with the ordered trace of
network calls it issued, so statements about "zero network calls" and
"one token call precedes one upstream call" are statements about the trace.
-/

set_option autoImplicit false

namespace Fabric

/-- Python values as they occur in this program: JSON scalars, lists and
dictionaries.  Dictionary keys are themselves values (Python dicts), though
every key built by the program or produced by a JSON parse is a `.str`. -/
inductive JVal where
  | null : JVal
  | str : String → JVal
  | jbool : Bool → JVal
  | num : Int → JVal
  | arr : List JVal → JVal
  | dict : List (JVal × JVal) → JVal
deriving Repr

/-- Exceptions a handler can raise (propagate to the MCP host). -/
inductive PyError where
  | runtimeError (msg : String)
  | httpError (status : Nat) (url : String)
  | jsonDecodeError
  | attributeError
  | keyError (key : String)
  | typeError
deriving Repr, DecidableEq

/-- HTTP method of a request the server issues. -/
inductive Method where
  | get : Method
  | post : Method
deriving Repr, DecidableEq

/-- A request as issued through `requests.get` / `requests.post`:
`jsonBody` is the `json=` keyword argument when present. -/
structure HttpRequest where
  method : Method
  url : String
  jsonBody : Option JVal
  headers : List (String × String)
deriving Repr

/-- A transport-level response.  `text` is the raw body (`resp.text`);
`jsonBody` is its JSON parse (`resp.json()`), `none` when the body is not
valid JSON (in which case `resp.json()` raises). -/
structure HttpResponse where
  status : Nat
  text : String
  jsonBody : Option JVal
deriving Repr

/-- One network call made by a handler, in order of issue. -/
inductive NetEvent where
  | tokenAcq (url : String) (payload : List (String × String))
  | api (req : HttpRequest)
deriving Repr

/-- What one tool invocation produces: the returned dictionary (or the
exception that propagates) and the ordered list of network calls issued. -/
structure Outcome where
  result : Except PyError JVal
  trace : List NetEvent
deriving Repr

/-- Python truthiness of a string (`bool(s)`). -/
def strTruthy (s : String) : Bool := s != ""

/-- Python truthiness of an optional string (`None` is falsy). -/
def optTruthy : Option String → Bool
  | none => false
  | some s => strTruthy s

/-- Python `a or b` on optional strings: `a` when truthy, else `b`. -/
def pyOr (a b : Option String) : Option String :=
  if optTruthy a then a else b

mutual

/-- Python `==` on the values of this program (structural equality). -/
def jvalBeq : JVal → JVal → Bool
  | .null, .null => true
  | .str a, .str b => a == b
  | .jbool a, .jbool b => a == b
  | .num a, .num b => a == b
  | .arr a, .arr b => jvalListBeq a b
  | .dict a, .dict b => jvalPairsBeq a b
  | _, _ => false

/-- Elementwise `jvalBeq` on lists. -/
def jvalListBeq : List JVal → List JVal → Bool
  | [], [] => true
  | x :: xs, y :: ys => jvalBeq x y && jvalListBeq xs ys
  | _, _ => false

/-- Elementwise `jvalBeq` on key/value pair lists. -/
def jvalPairsBeq : List (JVal × JVal) → List (JVal × JVal) → Bool
  | [], [] => true
  | (k, v) :: xs, (l, w) :: ys => jvalBeq k l && jvalBeq v w && jvalPairsBeq xs ys
  | _, _ => false

end

/-- First value bound to key `k` in a dictionary's entry list. -/
def dlookup (fs : List (JVal × JVal)) (k : JVal) : Option JVal :=
  match fs with
  | [] => none
  | (l, v) :: rest => if jvalBeq l k then some v else dlookup rest k

/-- Python `d[k] = v` on an (insertion-ordered) dictionary: overwrite in
place when the key is present, append otherwise. -/
def dictSet (fs : List (JVal × JVal)) (k v : JVal) : List (JVal × JVal) :=
  match fs with
  | [] => [(k, v)]
  | (l, w) :: rest => if jvalBeq l k then (k, v) :: rest else (l, w) :: dictSet rest k v

/-- Python truthiness (`bool(v)`) of a value. -/
def JVal.truthy : JVal → Bool
  | .null => false
  | .str s => s != ""
  | .jbool b => b
  | .num n => n != 0
  | .arr l => !l.isEmpty
  | .dict l => !l.isEmpty

/-- Python `d.get(k)`: `None` when the key is absent; `AttributeError`
when the receiver is not a dictionary. -/
def pyGet (v : JVal) (k : String) : Except PyError JVal :=
  match v with
  | .dict fs => .ok ((dlookup fs (.str k)).getD .null)
  | _ => .error .attributeError

/-- Python `d.get(k, dflt)`. -/
def pyGetD (v : JVal) (k : String) (dflt : JVal) : Except PyError JVal :=
  match v with
  | .dict fs => .ok ((dlookup fs (.str k)).getD dflt)
  | _ => .error .attributeError

/-- Python `d[k]` on a string key: `KeyError` when absent, `TypeError`
when the receiver is not a dictionary. -/
def pyIndex (v : JVal) (k : String) : Except PyError JVal :=
  match v with
  | .dict fs =>
    match dlookup fs (.str k) with
    | some x => .ok x
    | none => .error (.keyError k)
  | _ => .error .typeError

/-- Python iteration `for x in v`: lists yield their elements, strings
their characters, dictionaries their keys; other values raise `TypeError`. -/
def pyIter : JVal → Except PyError (List JVal)
  | .arr l => .ok l
  | .str s => .ok (s.toList.map fun c => .str c.toString)
  | .dict fs => .ok (fs.map fun p => p.1)
  | _ => .error .typeError

mutual

/-- `json.dumps` of a value (up to the whitespace/indentation that
`indent=2` inserts, and up to string escaping, neither of which the
program inspects). -/
def dumps : JVal → String
  | .null => "null"
  | .str s => "\"" ++ s ++ "\""
  | .jbool b => if b then "true" else "false"
  | .num n => toString n
  | .arr l => "[" ++ dumpsList l ++ "]"
  | .dict fs => "\x7b" ++ dumpsPairs fs ++ "\x7d"

/-- Comma-separated `dumps` of list elements. -/
def dumpsList : List JVal → String
  | [] => ""
  | [x] => dumps x
  | x :: xs => dumps x ++ ", " ++ dumpsList xs

/-- Comma-separated `dumps` of dictionary entries. -/
def dumpsPairs : List (JVal × JVal) → String
  | [] => ""
  | [(k, v)] => dumps k ++ ": " ++ dumps v
  | (k, v) :: xs => dumps k ++ ": " ++ dumps v ++ ", " ++ dumpsPairs xs

end

/-- Python `str(v)` as used in f-string interpolation: the identity on
strings (the only case the annotated code produces); containers and
scalars are rendered (their exact rendering is never inspected). -/
def pyStr : JVal → String
  | .str s => s
  | v => dumps v

/-- The module-level configuration read from the environment at startup.
The startup check (`fabric.py` lines 34-44) aborts unless `TENANT_ID`,
`CLIENT_ID` and `CLIENT_SECRET` are truthy, so they are plain strings here;
`USER_OBJECT_ID` and `CAPACITY_ID` stay optional. -/
structure Config where
  TENANT_ID : String
  CLIENT_ID : String
  CLIENT_SECRET : String
  USER_OBJECT_ID : Option String
  CAPACITY_ID : Option String
  ENV_SOURCE : String
deriving Repr

/-- Upstream API base URL (`FABRIC_BASE`). -/
def FABRIC_BASE : String := "https://api.fabric.microsoft.com/v1"

/-- The identity-endpoint URL built in `get_access_token`. -/
def tokenUrl (cfg : Config) : String :=
  "https://login.microsoftonline.com/" ++ cfg.TENANT_ID ++ "/oauth2/v2.0/token"

/-- The form-encoded payload `get_access_token` posts to the identity
endpoint. -/
def tokenPayload (cfg : Config) : List (String × String) :=
  [("client_id", cfg.CLIENT_ID),
   ("client_secret", cfg.CLIENT_SECRET),
   ("scope", "https://api.fabric.microsoft.com/.default"),
   ("grant_type", "client_credentials")]

/-- `resp.raise_for_status()` raises exactly for statuses 400-599. -/
def isErrorStatus (status : Nat) : Bool :=
  decide (400 ≤ status) && decide (status < 600)

/-- The message of `str(requests.HTTPError)` produced by
`raise_for_status`: a function of the response status and the request URL
only (the `requests` library never puts the request payload in it). -/
def httpErrorText (status : Nat) (url : String) : String :=
  toString status ++ " Error for url: " ++ url

/-- The `RuntimeError` message `get_access_token` raises on a non-success
token response (`fabric.py` lines 68-74). -/
def tokenFailMsg (cfg : Config) (status : Nat) (body : String) : String :=
  "Token request failed: " ++ httpErrorText status (tokenUrl cfg) ++ "\n" ++
  "Status=" ++ toString status ++ "\n" ++
  "Body=" ++ body ++ "\n" ++
  "Tenant=" ++ cfg.TENANT_ID ++ " ClientId=" ++ cfg.CLIENT_ID.take 6 ++ "... " ++
  "EnvSource=" ++ cfg.ENV_SOURCE

/-- `get_access_token` (`fabric.py` lines 51-79) applied to the identity
endpoint's response: `raise_for_status` (caught and re-raised as a
`RuntimeError` with the diagnostic message), then `resp.json()`, then
`data.get("access_token")` with a truthiness check. -/
def get_access_token (cfg : Config) (resp : HttpResponse) : Except PyError JVal :=
  if isErrorStatus resp.status then
    .error (.runtimeError (tokenFailMsg cfg resp.status resp.text))
  else
    match resp.jsonBody with
    | none => .error .jsonDecodeError
    | some data =>
      match pyGet data "access_token" with
      | .error e => .error e
      | .ok token =>
        if token.truthy then .ok token
        else .error (.runtimeError ("No access_token in response: " ++ dumps data))

/-- `_headers(token)` (`fabric.py` lines 81-82). -/
def headersJson (token : JVal) : List (String × String) :=
  [("Authorization", "Bearer " ++ pyStr token),
   ("Content-Type", "application/json")]

/-- The token-acquisition network event a handler's call to
`get_access_token` issues. -/
def tokenEvent (cfg : Config) : NetEvent :=
  .tokenAcq (tokenUrl cfg) (tokenPayload cfg)

/-- The `{"status": resp.status_code, "body": resp.text}` passthrough
result every handler returns for a non-success upstream status. -/
def statusBody (resp : HttpResponse) : JVal :=
  .dict [(.str "status", .num resp.status), (.str "body", .str resp.text)]

/-- The dict comprehension `{ws["displayName"]: ws["id"] for ws in entries}`
shared by `get_existing_workspaces` (line 131) and
`create_deployment_pipeline` (line 221), with `d` the dictionary built so
far. -/
def nameIdFold (d : List (JVal × JVal)) (entries : List JVal) :
    Except PyError (List (JVal × JVal)) :=
  match entries with
  | [] => .ok d
  | w :: rest =>
    match pyIndex w "displayName" with
    | .error e => .error e
    | .ok n =>
      match pyIndex w "id" with
      | .error e => .error e
      | .ok i => nameIdFold (dictSet d n i) rest

/-- `{ws["displayName"]: ws["id"] for ws in v}` where `v` is the value
being iterated (raises `TypeError` when `v` is not iterable). -/
def nameIdMap (v : JVal) : Except PyError (List (JVal × JVal)) :=
  match pyIter v with
  | .error e => .error e
  | .ok entries => nameIdFold [] entries

/-- `get_existing_workspaces` (`fabric.py` lines 119-131): one token call,
one GET; a 401 yields the distinguished error dictionary, other 4xx/5xx
raise through `raise_for_status`, anything else is parsed into the
displayName → id mapping. -/
def get_existing_workspaces (cfg : Config) (tokenResp : HttpResponse)
    (upstream : HttpRequest → HttpResponse) : Outcome :=
  match get_access_token cfg tokenResp with
  | .error e => ⟨.error e, [tokenEvent cfg]⟩
  | .ok token =>
    let url := FABRIC_BASE ++ "/workspaces"
    let req : HttpRequest :=
      ⟨.get, url, none, [("Authorization", "Bearer " ++ pyStr token)]⟩
    let resp := upstream req
    ⟨(if resp.status = 401 then
        .ok (.dict [(.str "error", .str "401 Unauthorized"),
                    (.str "body", .str resp.text)])
      else if isErrorStatus resp.status then
        .error (.httpError resp.status url)
      else
        match resp.jsonBody with
        | none => .error .jsonDecodeError
        | some data =>
          match pyGetD data "value" (.arr []) with
          | .error e => .error e
          | .ok v =>
            match nameIdMap v with
            | .error e => .error e
            | .ok m => .ok (.dict m)),
     [tokenEvent cfg, .api req]⟩

/-- `create_workspace` (`fabric.py` lines 133-148): resolve `capacity_id`
against the configured default with Python truthiness, fail fast without
any network call when unresolved, otherwise token + POST, returning
`{"workspace_id": resp.json().get("id")}` on 201 and the status/body
passthrough otherwise. -/
def create_workspace (cfg : Config) (tokenResp : HttpResponse)
    (upstream : HttpRequest → HttpResponse)
    (name : String) (capacity_id : Option String) : Outcome :=
  let cid := pyOr capacity_id cfg.CAPACITY_ID
  if optTruthy cid then
    match get_access_token cfg tokenResp with
    | .error e => ⟨.error e, [tokenEvent cfg]⟩
    | .ok token =>
      let url := FABRIC_BASE ++ "/workspaces"
      let payload : JVal := .dict [(.str "displayName", .str name),
                                   (.str "capacityId", .str (cid.getD ""))]
      let req : HttpRequest := ⟨.post, url, some payload, headersJson token⟩
      let resp := upstream req
      ⟨(if resp.status = 201 then
          match resp.jsonBody with
          | none => .error .jsonDecodeError
          | some j =>
            match pyGet j "id" with
            | .error e => .error e
            | .ok idv => .ok (.dict [(.str "workspace_id", idv)])
        else .ok (statusBody resp)),
       [tokenEvent cfg, .api req]⟩
  else
    ⟨.ok (.dict [(.str "error",
       .str "capacity_id not provided and CAPACITY_ID missing in .env")]), []⟩

/-- `assign_workspace_admin` (`fabric.py` lines 150-163): resolve
`user_object_id` against the configured default, fail fast without network
calls when unresolved, otherwise token + POST, always returning the
status/body passthrough. -/
def assign_workspace_admin (cfg : Config) (tokenResp : HttpResponse)
    (upstream : HttpRequest → HttpResponse)
    (workspace_id : String) (user_object_id : Option String) : Outcome :=
  let uid := pyOr user_object_id cfg.USER_OBJECT_ID
  if optTruthy uid then
    match get_access_token cfg tokenResp with
    | .error e => ⟨.error e, [tokenEvent cfg]⟩
    | .ok token =>
      let url := FABRIC_BASE ++ "/workspaces/" ++ workspace_id ++ "/roleAssignments"
      let payload : JVal := .dict
        [(.str "principal", .dict [(.str "id", .str (uid.getD "")),
                                   (.str "type", .str "User")]),
         (.str "role", .str "Admin")]
      let req : HttpRequest := ⟨.post, url, some payload, headersJson token⟩
      let resp := upstream req
      ⟨.ok (statusBody resp), [tokenEvent cfg, .api req]⟩
  else
    ⟨.ok (.dict [(.str "error",
       .str "user_object_id not provided and USER_OBJECT_ID missing in .env")]), []⟩

/-- `create_workspace_folder` (`fabric.py` lines 165-179): token + POST
with an optional `parentFolderId` field, returning folder id and
displayName on 201 and the status/body passthrough otherwise. -/
def create_workspace_folder (cfg : Config) (tokenResp : HttpResponse)
    (upstream : HttpRequest → HttpResponse)
    (workspace_id : String) (folder_name : String)
    (parent_folder_id : Option String) : Outcome :=
  match get_access_token cfg tokenResp with
  | .error e => ⟨.error e, [tokenEvent cfg]⟩
  | .ok token =>
    let url := FABRIC_BASE ++ "/workspaces/" ++ workspace_id ++ "/folders"
    let base : List (JVal × JVal) := [(.str "displayName", .str folder_name)]
    let fields :=
      if optTruthy parent_folder_id then
        dictSet base (.str "parentFolderId") (.str (parent_folder_id.getD ""))
      else base
    let req : HttpRequest := ⟨.post, url, some (.dict fields), headersJson token⟩
    let resp := upstream req
    ⟨(if resp.status = 201 then
        match resp.jsonBody with
        | none => .error .jsonDecodeError
        | some j =>
          match pyGet j "id" with
          | .error e => .error e
          | .ok idv =>
            match pyGet j "displayName" with
            | .error e => .error e
            | .ok dn => .ok (.dict [(.str "folder_id", idv),
                                    (.str "displayName", dn)])
      else .ok (statusBody resp)),
     [tokenEvent cfg, .api req]⟩

/-- `create_lakehouse` (`fabric.py` lines 181-190): token + POST, always
returning the status/body passthrough. -/
def create_lakehouse (cfg : Config) (tokenResp : HttpResponse)
    (upstream : HttpRequest → HttpResponse)
    (workspace_id : String) (lakehouse_name : String) : Outcome :=
  match get_access_token cfg tokenResp with
  | .error e => ⟨.error e, [tokenEvent cfg]⟩
  | .ok token =>
    let url := FABRIC_BASE ++ "/workspaces/" ++ workspace_id ++ "/lakehouses"
    let payload : JVal := .dict [(.str "displayName", .str lakehouse_name)]
    let req : HttpRequest := ⟨.post, url, some payload, headersJson token⟩
    let resp := upstream req
    ⟨.ok (statusBody resp), [tokenEvent cfg, .api req]⟩

/-- `create_warehouse` (`fabric.py` lines 192-201): token + POST, always
returning the status/body passthrough. -/
def create_warehouse (cfg : Config) (tokenResp : HttpResponse)
    (upstream : HttpRequest → HttpResponse)
    (workspace_id : String) (warehouse_name : String) : Outcome :=
  match get_access_token cfg tokenResp with
  | .error e => ⟨.error e, [tokenEvent cfg]⟩
  | .ok token =>
    let url := FABRIC_BASE ++ "/workspaces/" ++ workspace_id ++ "/warehouses"
    let payload : JVal := .dict [(.str "displayName", .str warehouse_name)]
    let req : HttpRequest := ⟨.post, url, some payload, headersJson token⟩
    let resp := upstream req
    ⟨.ok (statusBody resp), [tokenEvent cfg, .api req]⟩

/-- The stage object `create_deployment_pipeline` builds for one stage
name: `{"displayName": s, "description": f"{s} stage", "isPublic": False}`. -/
def stageObj (s : String) : JVal :=
  .dict [(.str "displayName", .str s),
         (.str "description", .str (s ++ " stage")),
         (.str "isPublic", .jbool false)]

/-- `create_deployment_pipeline` (`fabric.py` lines 203-223): token + POST
of the name/description/stages payload; on 201 the response's stages are
folded into a displayName → id mapping and returned with the pipeline id,
otherwise the status/body passthrough. -/
def create_deployment_pipeline (cfg : Config) (tokenResp : HttpResponse)
    (upstream : HttpRequest → HttpResponse)
    (name : String) (description : String) (stages : List String) : Outcome :=
  match get_access_token cfg tokenResp with
  | .error e => ⟨.error e, [tokenEvent cfg]⟩
  | .ok token =>
    let url := FABRIC_BASE ++ "/deploymentPipelines"
    let payload : JVal := .dict
      [(.str "displayName", .str name),
       (.str "description", .str description),
       (.str "stages", .arr (stages.map stageObj))]
    let req : HttpRequest := ⟨.post, url, some payload, headersJson token⟩
    let resp := upstream req
    ⟨(if resp.status = 201 then
        match resp.jsonBody with
        | none => .error .jsonDecodeError
        | some p =>
          match pyGetD p "stages" (.arr []) with
          | .error e => .error e
          | .ok v =>
            match nameIdMap v with
            | .error e => .error e
            | .ok stage_map =>
              match pyGet p "id" with
              | .error e => .error e
              | .ok pid => .ok (.dict [(.str "pipeline_id", pid),
                                       (.str "stages", .dict stage_map)])
      else .ok (statusBody resp)),
     [tokenEvent cfg, .api req]⟩

/-- `assign_workspace_to_stage` (`fabric.py` lines 225-234): token + POST,
always returning the status/body passthrough. -/
def assign_workspace_to_stage (cfg : Config) (tokenResp : HttpResponse)
    (upstream : HttpRequest → HttpResponse)
    (pipeline_id : String) (stage_id : String) (workspace_id : String) : Outcome :=
  match get_access_token cfg tokenResp with
  | .error e => ⟨.error e, [tokenEvent cfg]⟩
  | .ok token =>
    let url := FABRIC_BASE ++ "/deploymentPipelines/" ++ pipeline_id ++
      "/stages/" ++ stage_id ++ "/assignWorkspace"
    let payload : JVal := .dict [(.str "workspaceId", .str workspace_id)]
    let req : HttpRequest := ⟨.post, url, some payload, headersJson token⟩
    let resp := upstream req
    ⟨.ok (statusBody resp), [tokenEvent cfg, .api req]⟩

/-- `assign_pipeline_admin` (`fabric.py` lines 236-248): resolve
`user_object_id` against the configured default, fail fast without network
calls when unresolved, otherwise token + POST, always returning the
status/body passthrough. -/
def assign_pipeline_admin (cfg : Config) (tokenResp : HttpResponse)
    (upstream : HttpRequest → HttpResponse)
    (pipeline_id : String) (user_object_id : Option String) : Outcome :=
  let uid := pyOr user_object_id cfg.USER_OBJECT_ID
  if optTruthy uid then
    match get_access_token cfg tokenResp with
    | .error e => ⟨.error e, [tokenEvent cfg]⟩
    | .ok token =>
      let url := FABRIC_BASE ++ "/deploymentPipelines/" ++ pipeline_id ++ "/roleAssignments"
      let payload : JVal := .dict
        [(.str "principal", .dict [(.str "id", .str (uid.getD "")),
                                   (.str "type", .str "User")]),
         (.str "role", .str "Admin")]
      let req : HttpRequest := ⟨.post, url, some payload, headersJson token⟩
      let resp := upstream req
      ⟨.ok (statusBody resp), [tokenEvent cfg, .api req]⟩
  else
    ⟨.ok (.dict [(.str "error",
       .str "user_object_id not provided and USER_OBJECT_ID missing in .env")]), []⟩

/-- Classification of a network event, for counting/ordering statements. -/
inductive NetKind where
  | token : NetKind
  | api : NetKind
deriving Repr, DecidableEq

/-- The kind of a network event. -/
def NetEvent.kind : NetEvent → NetKind
  | .tokenAcq _ _ => .token
  | .api _ => .api

section Helpers

/-- `jvalBeq` on two string values is string equality. -/
theorem jvalBeq_str (a b : String) : jvalBeq (.str a) (.str b) = (a == b) := by
  simp [jvalBeq]

/-- A truthy optional string is a `some` of a nonempty string. -/
theorem optTruthy_some_iff (d : String) : optTruthy (some d) = true ↔ d ≠ "" := by
  simp [optTruthy, strTruthy]

/-- Statuses below 400 do not trip `raise_for_status`. -/
theorem isErrorStatus_false_of_lt {s : Nat} (h : s < 400) : isErrorStatus s = false := by
  simp [isErrorStatus]
  omega

/-- Statuses in 400-599 trip `raise_for_status`. -/
theorem isErrorStatus_true_of {s : Nat} (h1 : 400 ≤ s) (h2 : s < 600) :
    isErrorStatus s = true := by
  simp [isErrorStatus]
  omega

/-- Characterisation of `raise_for_status`. -/
theorem isErrorStatus_iff {s : Nat} : isErrorStatus s = true ↔ 400 ≤ s ∧ s < 600 := by
  simp [isErrorStatus]

/-- Inserting a key absent from a dictionary appends the binding. -/
theorem dictSet_append {d : List (JVal × JVal)} {k v : JVal}
    (h : ∀ q ∈ d, jvalBeq q.1 k = false) :
    dictSet d k v = d ++ [(k, v)] := by
  induction d with
  | nil => rfl
  | cons q rest ih =>
    obtain ⟨l, w⟩ := q
    have hq := h (l, w) (List.mem_cons_self _ _)
    simp only [dictSet, hq, if_neg Bool.false_ne_true, List.cons_append, List.cons.injEq, true_and]
    exact ih fun q hq' => h q (List.mem_cons_of_mem _ hq')

/-- The relation between one upstream entry and the (name, id) pair it
contributes: the entry's `displayName` is the name and its `id` the id. -/
def EntryPair (e : JVal) (p : String × JVal) : Prop :=
  pyIndex e "displayName" = .ok (.str p.1) ∧ pyIndex e "id" = .ok p.2

/-- The dict comprehension over entries whose `displayName`s are pairwise
distinct and disjoint from the accumulator's keys appends the
name → id bindings in entry order. -/
theorem nameIdFold_eq {entries : List JVal} {pairs : List (String × JVal)}
    (hrel : List.Forall₂ EntryPair entries pairs)
    (hnodup : (pairs.map Prod.fst).Nodup) :
    ∀ d : List (JVal × JVal), (∀ q ∈ d, ∀ p ∈ pairs, jvalBeq q.1 (.str p.1) = false) →
    nameIdFold d entries = .ok (d ++ pairs.map fun p => (JVal.str p.1, p.2)) := by
  induction hrel with
  | nil => intro d _; simp [nameIdFold]
  | cons he hrest ih =>
    rename_i e p es ps
    intro d hd
    obtain ⟨hn, hi⟩ := he
    simp only [List.map_cons, List.nodup_cons] at hnodup
    obtain ⟨hnotin, hnodup'⟩ := hnodup
    have hset : dictSet d (.str p.1) p.2 = d ++ [(JVal.str p.1, p.2)] :=
      dictSet_append fun q hq => hd q hq p (List.mem_cons_self _ _)
    have ih' := ih hnodup' (d ++ [(JVal.str p.1, p.2)]) ?_
    · simp only [nameIdFold, hn, hi, hset, ih', List.append_assoc,
        List.singleton_append, List.map_cons]
    · intro q hq p' hp'
      rcases List.mem_append.1 hq with hq | hq
      · exact hd q hq p' (List.mem_cons_of_mem _ hp')
      · simp only [List.mem_singleton] at hq
        subst hq
        simp only [jvalBeq_str]
        have : p.1 ≠ p'.1 := by
          intro hcontra
          exact hnotin (hcontra ▸ List.mem_map_of_mem Prod.fst hp')
        simp [this]

end Helpers

section Fixtures

/-- A configuration with both optional defaults present. -/
def cfg0 : Config :=
  ⟨"tenant-a", "client-id-x", "secret-s", some "udef", some "cdef", "/app/.env"⟩

/-- A configuration with no optional defaults. -/
def cfgNoDefaults : Config :=
  ⟨"tenant-a", "client-id-x", "secret-s", none, none, "/app/.env"⟩

/-- A successful identity-endpoint response carrying a token. -/
def tokRespOk : HttpResponse :=
  ⟨200, "tokbody", some (.dict [(.str "access_token", .str "tok")])⟩

/-- A transport whose responses no claim inspects (used where a claim
asserts the transport is never reached). -/
def someTransport : HttpRequest → HttpResponse := fun _ => ⟨200, "", none⟩

end Fixtures

/-- C1: for every tool with a defaulted argument (create workspace's
capacityId, assign workspace admin's and assign pipeline admin's
userObjectId), if the argument is absent and the corresponding configured
default is absent, the handler returns the error result naming the missing
field and performs zero network calls — neither token acquisition nor an
upstream call (its trace is empty). -/
theorem C1_missing_arg_no_default_errors_without_network
    (cfg : Config) (tokenResp : HttpResponse) (upstream : HttpRequest → HttpResponse)
    (name wsid pid : String)
    (hcap : cfg.CAPACITY_ID = none) (huser : cfg.USER_OBJECT_ID = none) :
    create_workspace cfg tokenResp upstream name none =
      ⟨.ok (.dict [(.str "error",
        .str "capacity_id not provided and CAPACITY_ID missing in .env")]), []⟩ ∧
    assign_workspace_admin cfg tokenResp upstream wsid none =
      ⟨.ok (.dict [(.str "error",
        .str "user_object_id not provided and USER_OBJECT_ID missing in .env")]), []⟩ ∧
    assign_pipeline_admin cfg tokenResp upstream pid none =
      ⟨.ok (.dict [(.str "error",
        .str "user_object_id not provided and USER_OBJECT_ID missing in .env")]), []⟩ := by
  refine ⟨?_, ?_, ?_⟩ <;>
    simp [create_workspace, assign_workspace_admin, assign_pipeline_admin,
      pyOr, optTruthy, hcap, huser]

/-- Witness for C1 at a concrete configuration with no defaults. -/
theorem C1_witness :
    create_workspace cfgNoDefaults tokRespOk someTransport "ws-name" none =
      ⟨.ok (.dict [(.str "error",
        .str "capacity_id not provided and CAPACITY_ID missing in .env")]), []⟩ ∧
    assign_workspace_admin cfgNoDefaults tokRespOk someTransport "w1" none =
      ⟨.ok (.dict [(.str "error",
        .str "user_object_id not provided and USER_OBJECT_ID missing in .env")]), []⟩ ∧
    assign_pipeline_admin cfgNoDefaults tokRespOk someTransport "p1" none =
      ⟨.ok (.dict [(.str "error",
        .str "user_object_id not provided and USER_OBJECT_ID missing in .env")]), []⟩ :=
  C1_missing_arg_no_default_errors_without_network cfgNoDefaults tokRespOk
    someTransport "ws-name" "w1" "p1" rfl rfl

/-- C6: when the list-workspaces tool receives an upstream 401 response it
returns the distinguished `{"error": "401 Unauthorized", "body": <raw
body>}` dictionary (an `.ok` result, so nothing is raised). -/
theorem C6_listing_401_distinguished
    (cfg : Config) (tokenResp : HttpResponse) (tok : JVal) (b : String)
    (j : Option JVal)
    (htok : get_access_token cfg tokenResp = .ok tok) :
    (get_existing_workspaces cfg tokenResp (fun _ => ⟨401, b, j⟩)).result
      = .ok (.dict [(.str "error", .str "401 Unauthorized"),
                    (.str "body", .str b)]) := by
  simp [get_existing_workspaces, htok]

/-- Witness for C6 at a concrete 401 response. -/
theorem C6_witness :
    (get_existing_workspaces cfg0 tokRespOk (fun _ => ⟨401, "denied", none⟩)).result
      = .ok (.dict [(.str "error", .str "401 Unauthorized"),
                    (.str "body", .str "denied")]) :=
  C6_listing_401_distinguished cfg0 tokRespOk (.str "tok") "denied" none rfl

/-- C10: for create workspace, assign workspace admin and assign pipeline
admin, an argument passed as the empty string is treated exactly like an
absent argument (the invocations are equal); when the configured default is
also absent or empty the missing-value error result comes back with no
network call; and when a nonempty default is configured, the value put in
the request body is the default — an explicitly supplied empty string is
never sent upstream. -/
theorem C10_empty_string_arg_falls_back
    (cfgA cfgB : Config) (tokenResp : HttpResponse)
    (upstream : HttpRequest → HttpResponse) (tok : JVal)
    (name wsid pid d u : String)
    (hAc : cfgA.CAPACITY_ID = none ∨ cfgA.CAPACITY_ID = some "")
    (hAu : cfgA.USER_OBJECT_ID = none ∨ cfgA.USER_OBJECT_ID = some "")
    (hBc : cfgB.CAPACITY_ID = some d) (hd : d ≠ "")
    (hBu : cfgB.USER_OBJECT_ID = some u) (hu : u ≠ "")
    (htok : get_access_token cfgB tokenResp = .ok tok) :
    (create_workspace cfgA tokenResp upstream name (some "") =
      create_workspace cfgA tokenResp upstream name none) ∧
    (assign_workspace_admin cfgA tokenResp upstream wsid (some "") =
      assign_workspace_admin cfgA tokenResp upstream wsid none) ∧
    (assign_pipeline_admin cfgA tokenResp upstream pid (some "") =
      assign_pipeline_admin cfgA tokenResp upstream pid none) ∧
    (create_workspace cfgA tokenResp upstream name (some "") =
      ⟨.ok (.dict [(.str "error",
        .str "capacity_id not provided and CAPACITY_ID missing in .env")]), []⟩) ∧
    (assign_workspace_admin cfgA tokenResp upstream wsid (some "") =
      ⟨.ok (.dict [(.str "error",
        .str "user_object_id not provided and USER_OBJECT_ID missing in .env")]), []⟩) ∧
    (assign_pipeline_admin cfgA tokenResp upstream pid (some "") =
      ⟨.ok (.dict [(.str "error",
        .str "user_object_id not provided and USER_OBJECT_ID missing in .env")]), []⟩) ∧
    ((create_workspace cfgB tokenResp upstream name (some "")).trace =
      [tokenEvent cfgB, .api ⟨.post, FABRIC_BASE ++ "/workspaces",
        some (.dict [(.str "displayName", .str name), (.str "capacityId", .str d)]),
        headersJson tok⟩]) ∧
    ((assign_workspace_admin cfgB tokenResp upstream wsid (some "")).trace =
      [tokenEvent cfgB, .api ⟨.post,
        FABRIC_BASE ++ "/workspaces/" ++ wsid ++ "/roleAssignments",
        some (.dict [(.str "principal", .dict [(.str "id", .str u),
                                               (.str "type", .str "User")]),
                     (.str "role", .str "Admin")]),
        headersJson tok⟩]) ∧
    ((assign_pipeline_admin cfgB tokenResp upstream pid (some "")).trace =
      [tokenEvent cfgB, .api ⟨.post,
        FABRIC_BASE ++ "/deploymentPipelines/" ++ pid ++ "/roleAssignments",
        some (.dict [(.str "principal", .dict [(.str "id", .str u),
                                               (.str "type", .str "User")]),
                     (.str "role", .str "Admin")]),
        headersJson tok⟩]) := by
  refine ⟨rfl, rfl, rfl, ?_, ?_, ?_, ?_, ?_, ?_⟩
  · rcases hAc with h | h <;>
      simp [create_workspace, pyOr, optTruthy, strTruthy, h]
  · rcases hAu with h | h <;>
      simp [assign_workspace_admin, pyOr, optTruthy, strTruthy, h]
  · rcases hAu with h | h <;>
      simp [assign_pipeline_admin, pyOr, optTruthy, strTruthy, h]
  · simp [create_workspace, pyOr, optTruthy, strTruthy, hBc, hd, htok]
  · simp [assign_workspace_admin, pyOr, optTruthy, strTruthy, hBu, hu, htok]
  · simp [assign_pipeline_admin, pyOr, optTruthy, strTruthy, hBu, hu, htok]

/-- Witness for C10 at concrete configurations with empty and with
configured defaults. -/
theorem C10_witness :
    (create_workspace cfgNoDefaults tokRespOk someTransport "n" (some "") =
      create_workspace cfgNoDefaults tokRespOk someTransport "n" none) ∧
    (assign_workspace_admin cfgNoDefaults tokRespOk someTransport "w1" (some "") =
      assign_workspace_admin cfgNoDefaults tokRespOk someTransport "w1" none) ∧
    (assign_pipeline_admin cfgNoDefaults tokRespOk someTransport "p1" (some "") =
      assign_pipeline_admin cfgNoDefaults tokRespOk someTransport "p1" none) ∧
    (create_workspace cfgNoDefaults tokRespOk someTransport "n" (some "") =
      ⟨.ok (.dict [(.str "error",
        .str "capacity_id not provided and CAPACITY_ID missing in .env")]), []⟩) ∧
    (assign_workspace_admin cfgNoDefaults tokRespOk someTransport "w1" (some "") =
      ⟨.ok (.dict [(.str "error",
        .str "user_object_id not provided and USER_OBJECT_ID missing in .env")]), []⟩) ∧
    (assign_pipeline_admin cfgNoDefaults tokRespOk someTransport "p1" (some "") =
      ⟨.ok (.dict [(.str "error",
        .str "user_object_id not provided and USER_OBJECT_ID missing in .env")]), []⟩) ∧
    ((create_workspace cfg0 tokRespOk someTransport "n" (some "")).trace =
      [tokenEvent cfg0, .api ⟨.post, FABRIC_BASE ++ "/workspaces",
        some (.dict [(.str "displayName", .str "n"), (.str "capacityId", .str "cdef")]),
        headersJson (.str "tok")⟩]) ∧
    ((assign_workspace_admin cfg0 tokRespOk someTransport "w1" (some "")).trace =
      [tokenEvent cfg0, .api ⟨.post,
        FABRIC_BASE ++ "/workspaces/" ++ "w1" ++ "/roleAssignments",
        some (.dict [(.str "principal", .dict [(.str "id", .str "udef"),
                                               (.str "type", .str "User")]),
                     (.str "role", .str "Admin")]),
        headersJson (.str "tok")⟩]) ∧
    ((assign_pipeline_admin cfg0 tokRespOk someTransport "p1" (some "")).trace =
      [tokenEvent cfg0, .api ⟨.post,
        FABRIC_BASE ++ "/deploymentPipelines/" ++ "p1" ++ "/roleAssignments",
        some (.dict [(.str "principal", .dict [(.str "id", .str "udef"),
                                               (.str "type", .str "User")]),
                     (.str "role", .str "Admin")]),
        headersJson (.str "tok")⟩]) :=
  C10_empty_string_arg_falls_back cfgNoDefaults cfg0 tokRespOk someTransport
    (.str "tok") "n" "w1" "p1" "cdef" "udef"
    (Or.inl rfl) (Or.inl rfl) rfl (by decide) rfl (by decide) rfl

/-- C7: create workspace called with no `capacityId` argument and a
configured (nonempty) default sends a request body whose `capacityId` is
the configured default, and on an upstream 201 returns the created
workspace id extracted from the response body. -/
theorem C7_create_workspace_default_capacity
    (cfg : Config) (tokenResp : HttpResponse) (tok : JVal) (name d b : String)
    (fs : List (JVal × JVal)) (wid : JVal)
    (hcid : cfg.CAPACITY_ID = some d) (hd : d ≠ "")
    (htok : get_access_token cfg tokenResp = .ok tok)
    (hid : dlookup fs (.str "id") = some wid) :
    create_workspace cfg tokenResp (fun _ => ⟨201, b, some (.dict fs)⟩) name none =
      ⟨.ok (.dict [(.str "workspace_id", wid)]),
       [tokenEvent cfg, .api ⟨.post, FABRIC_BASE ++ "/workspaces",
          some (.dict [(.str "displayName", .str name), (.str "capacityId", .str d)]),
          headersJson tok⟩]⟩ := by
  simp [create_workspace, pyOr, optTruthy, strTruthy, hcid, hd, htok, pyGet, hid]

/-- Witness for C7 at a concrete configuration and 201 response. -/
theorem C7_witness :
    create_workspace cfg0 tokRespOk
        (fun _ => ⟨201, "wsbody", some (.dict [(.str "id", .str "ws-9")])⟩) "n" none =
      ⟨.ok (.dict [(.str "workspace_id", .str "ws-9")]),
       [tokenEvent cfg0, .api ⟨.post, FABRIC_BASE ++ "/workspaces",
          some (.dict [(.str "displayName", .str "n"), (.str "capacityId", .str "cdef")]),
          headersJson (.str "tok")⟩]⟩ :=
  C7_create_workspace_default_capacity cfg0 tokRespOk (.str "tok") "n" "cdef"
    "wsbody" [(.str "id", .str "ws-9")] (.str "ws-9") rfl (by decide) rfl rfl

/-- C9: create workspace is not idempotent — against an upstream that
allocates a distinct id per request, two calls with identical arguments
return the two distinct ids: the result is determined by the upstream
response, not by the arguments. -/
theorem C9_create_workspace_not_idempotent
    (cfg : Config) (tokenResp : HttpResponse) (tok : JVal)
    (name : String) (capacity_id : Option String)
    (b₁ b₂ : String) (fs₁ fs₂ : List (JVal × JVal)) (w₁ w₂ : JVal)
    (hres : optTruthy (pyOr capacity_id cfg.CAPACITY_ID) = true)
    (htok : get_access_token cfg tokenResp = .ok tok)
    (h₁ : dlookup fs₁ (.str "id") = some w₁)
    (h₂ : dlookup fs₂ (.str "id") = some w₂)
    (hne : w₁ ≠ w₂) :
    (create_workspace cfg tokenResp (fun _ => ⟨201, b₁, some (.dict fs₁)⟩)
        name capacity_id).result = .ok (.dict [(.str "workspace_id", w₁)]) ∧
    (create_workspace cfg tokenResp (fun _ => ⟨201, b₂, some (.dict fs₂)⟩)
        name capacity_id).result = .ok (.dict [(.str "workspace_id", w₂)]) ∧
    (create_workspace cfg tokenResp (fun _ => ⟨201, b₁, some (.dict fs₁)⟩)
        name capacity_id).result ≠
      (create_workspace cfg tokenResp (fun _ => ⟨201, b₂, some (.dict fs₂)⟩)
        name capacity_id).result := by
  have e₁ : (create_workspace cfg tokenResp (fun _ => ⟨201, b₁, some (.dict fs₁)⟩)
      name capacity_id).result = .ok (.dict [(.str "workspace_id", w₁)]) := by
    simp [create_workspace, hres, htok, pyGet, h₁]
  have e₂ : (create_workspace cfg tokenResp (fun _ => ⟨201, b₂, some (.dict fs₂)⟩)
      name capacity_id).result = .ok (.dict [(.str "workspace_id", w₂)]) := by
    simp [create_workspace, hres, htok, pyGet, h₂]
  refine ⟨e₁, e₂, ?_⟩
  rw [e₁, e₂]
  simp [hne]

/-- Witness for C9 against a mock upstream allocating sequential ids. -/
theorem C9_witness :
    (create_workspace cfg0 tokRespOk (fun _ => ⟨201, "b1",
        some (.dict [(.str "id", .str "1")])⟩) "n" none).result
      = .ok (.dict [(.str "workspace_id", .str "1")]) ∧
    (create_workspace cfg0 tokRespOk (fun _ => ⟨201, "b2",
        some (.dict [(.str "id", .str "2")])⟩) "n" none).result
      = .ok (.dict [(.str "workspace_id", .str "2")]) ∧
    (create_workspace cfg0 tokRespOk (fun _ => ⟨201, "b1",
        some (.dict [(.str "id", .str "1")])⟩) "n" none).result ≠
      (create_workspace cfg0 tokRespOk (fun _ => ⟨201, "b2",
        some (.dict [(.str "id", .str "2")])⟩) "n" none).result :=
  C9_create_workspace_not_idempotent cfg0 tokRespOk (.str "tok") "n" none
    "b1" "b2" [(.str "id", .str "1")] [(.str "id", .str "2")]
    (.str "1") (.str "2") rfl rfl rfl rfl (by simp)

/-- One tool invocation issued exactly one token acquisition followed by
exactly one upstream call, the token acquisition being this invocation's
own (fresh) request to the configured identity endpoint. -/
def OneTokenThenOneApi (cfg : Config) (o : Outcome) : Prop :=
  o.trace.map NetEvent.kind = [.token, .api] ∧ o.trace.head? = some (tokenEvent cfg)

/-- C8: every forwarding tool invocation that passes argument resolution
and acquires a token issues exactly one token-acquisition call followed by
exactly one upstream call, the token being fetched freshly by that
invocation (the trace begins with its own identity-endpoint request). -/
theorem C8_one_token_then_one_upstream
    (cfg : Config) (tokenResp : HttpResponse) (upstream : HttpRequest → HttpResponse)
    (tok : JVal) (name wsid folder pid stid desc lkname whname : String)
    (capacity_id user_object_id parent : Option String) (stages : List String)
    (htok : get_access_token cfg tokenResp = .ok tok)
    (hres_c : optTruthy (pyOr capacity_id cfg.CAPACITY_ID) = true)
    (hres_u : optTruthy (pyOr user_object_id cfg.USER_OBJECT_ID) = true) :
    OneTokenThenOneApi cfg (get_existing_workspaces cfg tokenResp upstream) ∧
    OneTokenThenOneApi cfg (create_workspace cfg tokenResp upstream name capacity_id) ∧
    OneTokenThenOneApi cfg (assign_workspace_admin cfg tokenResp upstream wsid user_object_id) ∧
    OneTokenThenOneApi cfg (create_workspace_folder cfg tokenResp upstream wsid folder parent) ∧
    OneTokenThenOneApi cfg (create_lakehouse cfg tokenResp upstream wsid lkname) ∧
    OneTokenThenOneApi cfg (create_warehouse cfg tokenResp upstream wsid whname) ∧
    OneTokenThenOneApi cfg (create_deployment_pipeline cfg tokenResp upstream name desc stages) ∧
    OneTokenThenOneApi cfg (assign_workspace_to_stage cfg tokenResp upstream pid stid wsid) ∧
    OneTokenThenOneApi cfg (assign_pipeline_admin cfg tokenResp upstream pid user_object_id) := by
  refine ⟨?_, ?_, ?_, ?_, ?_, ?_, ?_, ?_, ?_⟩ <;>
    exact ⟨by simp [get_existing_workspaces, create_workspace, assign_workspace_admin,
        create_workspace_folder, create_lakehouse, create_warehouse,
        create_deployment_pipeline, assign_workspace_to_stage, assign_pipeline_admin,
        htok, hres_c, hres_u, NetEvent.kind, tokenEvent],
      by simp [get_existing_workspaces, create_workspace, assign_workspace_admin,
        create_workspace_folder, create_lakehouse, create_warehouse,
        create_deployment_pipeline, assign_workspace_to_stage, assign_pipeline_admin,
        htok, hres_c, hres_u]⟩

/-- Witness for C8 at a concrete configuration and transport. -/
theorem C8_witness :
    OneTokenThenOneApi cfg0 (get_existing_workspaces cfg0 tokRespOk someTransport) ∧
    OneTokenThenOneApi cfg0 (create_workspace cfg0 tokRespOk someTransport "n" none) ∧
    OneTokenThenOneApi cfg0 (assign_workspace_admin cfg0 tokRespOk someTransport "w1" none) ∧
    OneTokenThenOneApi cfg0 (create_workspace_folder cfg0 tokRespOk someTransport "w1" "f" none) ∧
    OneTokenThenOneApi cfg0 (create_lakehouse cfg0 tokRespOk someTransport "w1" "lk") ∧
    OneTokenThenOneApi cfg0 (create_warehouse cfg0 tokRespOk someTransport "w1" "wh") ∧
    OneTokenThenOneApi cfg0 (create_deployment_pipeline cfg0 tokRespOk someTransport "p" "d" ["Dev"]) ∧
    OneTokenThenOneApi cfg0 (assign_workspace_to_stage cfg0 tokRespOk someTransport "p1" "s1" "w1") ∧
    OneTokenThenOneApi cfg0 (assign_pipeline_admin cfg0 tokRespOk someTransport "p1" none) :=
  C8_one_token_then_one_upstream cfg0 tokRespOk someTransport (.str "tok")
    "n" "w1" "f" "p1" "s1" "d" "lk" "wh" none none none ["Dev"] rfl rfl rfl

/-- Counterexample to C2 as stated: on the list-workspaces tool an
upstream 500 (a non-success status other than the distinguished 401) is
not returned as `{status, body}` — `raise_for_status` turns it into a
raised `HTTPError` that propagates. -/
theorem C2_counterexample_listing_500_raises :
    (get_existing_workspaces cfg0 tokRespOk (fun _ => ⟨500, "boom", none⟩)).result
      = .error (.httpError 500 "https://api.fabric.microsoft.com/v1/workspaces") := rfl

/-- C2 (amended): for every forwarding tool except list-workspaces, an
upstream response with a status other than the tool's success status is
returned as `{status: <code>, body: <raw text>}` with the body unmodified
and nothing raised; list-workspaces instead returns the distinguished
result on 401 and raises on the other 400-599 statuses. -/
theorem C2_amended_non_success_passthrough
    (cfg : Config) (tokenResp : HttpResponse)
    (tok : JVal) (name wsid folder pid stid desc lkname whname : String)
    (capacity_id user_object_id parent : Option String) (stages : List String)
    (s sl : Nat) (b bl : String) (j jl : Option JVal)
    (htok : get_access_token cfg tokenResp = .ok tok)
    (hres_c : optTruthy (pyOr capacity_id cfg.CAPACITY_ID) = true)
    (hres_u : optTruthy (pyOr user_object_id cfg.USER_OBJECT_ID) = true)
    (hs : s ≠ 201)
    (hl1 : 400 ≤ sl) (hl2 : sl < 600) (hl3 : sl ≠ 401) :
    ((create_workspace cfg tokenResp (fun _ => ⟨s, b, j⟩) name capacity_id).result
      = .ok (.dict [(.str "status", .num s), (.str "body", .str b)])) ∧
    ((create_workspace_folder cfg tokenResp (fun _ => ⟨s, b, j⟩) wsid folder parent).result
      = .ok (.dict [(.str "status", .num s), (.str "body", .str b)])) ∧
    ((create_deployment_pipeline cfg tokenResp (fun _ => ⟨s, b, j⟩) name desc stages).result
      = .ok (.dict [(.str "status", .num s), (.str "body", .str b)])) ∧
    ((assign_workspace_admin cfg tokenResp (fun _ => ⟨s, b, j⟩) wsid user_object_id).result
      = .ok (.dict [(.str "status", .num s), (.str "body", .str b)])) ∧
    ((create_lakehouse cfg tokenResp (fun _ => ⟨s, b, j⟩) wsid lkname).result
      = .ok (.dict [(.str "status", .num s), (.str "body", .str b)])) ∧
    ((create_warehouse cfg tokenResp (fun _ => ⟨s, b, j⟩) wsid whname).result
      = .ok (.dict [(.str "status", .num s), (.str "body", .str b)])) ∧
    ((assign_workspace_to_stage cfg tokenResp (fun _ => ⟨s, b, j⟩) pid stid wsid).result
      = .ok (.dict [(.str "status", .num s), (.str "body", .str b)])) ∧
    ((assign_pipeline_admin cfg tokenResp (fun _ => ⟨s, b, j⟩) pid user_object_id).result
      = .ok (.dict [(.str "status", .num s), (.str "body", .str b)])) ∧
    ((get_existing_workspaces cfg tokenResp (fun _ => ⟨401, bl, jl⟩)).result
      = .ok (.dict [(.str "error", .str "401 Unauthorized"), (.str "body", .str bl)])) ∧
    ((get_existing_workspaces cfg tokenResp (fun _ => ⟨sl, bl, jl⟩)).result
      = .error (.httpError sl (FABRIC_BASE ++ "/workspaces"))) := by
  have herr : isErrorStatus sl = true := isErrorStatus_true_of hl1 hl2
  refine ⟨?_, ?_, ?_, ?_, ?_, ?_, ?_, ?_, ?_, ?_⟩ <;>
    simp [create_workspace, create_workspace_folder, create_deployment_pipeline,
      assign_workspace_admin, create_lakehouse, create_warehouse,
      assign_workspace_to_stage, assign_pipeline_admin, get_existing_workspaces,
      htok, hres_c, hres_u, hs, hl3, herr, statusBody]

/-- Witness for the amended C2 at concrete statuses 409 and 500. -/
theorem C2_amended_witness :
    ((create_workspace cfg0 tokRespOk (fun _ => ⟨409, "conflict", none⟩) "n" none).result
      = .ok (.dict [(.str "status", .num 409), (.str "body", .str "conflict")])) ∧
    ((create_workspace_folder cfg0 tokRespOk (fun _ => ⟨409, "conflict", none⟩) "w1" "f" none).result
      = .ok (.dict [(.str "status", .num 409), (.str "body", .str "conflict")])) ∧
    ((create_deployment_pipeline cfg0 tokRespOk (fun _ => ⟨409, "conflict", none⟩) "n" "d" ["Dev"]).result
      = .ok (.dict [(.str "status", .num 409), (.str "body", .str "conflict")])) ∧
    ((assign_workspace_admin cfg0 tokRespOk (fun _ => ⟨409, "conflict", none⟩) "w1" none).result
      = .ok (.dict [(.str "status", .num 409), (.str "body", .str "conflict")])) ∧
    ((create_lakehouse cfg0 tokRespOk (fun _ => ⟨409, "conflict", none⟩) "w1" "lk").result
      = .ok (.dict [(.str "status", .num 409), (.str "body", .str "conflict")])) ∧
    ((create_warehouse cfg0 tokRespOk (fun _ => ⟨409, "conflict", none⟩) "w1" "wh").result
      = .ok (.dict [(.str "status", .num 409), (.str "body", .str "conflict")])) ∧
    ((assign_workspace_to_stage cfg0 tokRespOk (fun _ => ⟨409, "conflict", none⟩) "p1" "s1" "w1").result
      = .ok (.dict [(.str "status", .num 409), (.str "body", .str "conflict")])) ∧
    ((assign_pipeline_admin cfg0 tokRespOk (fun _ => ⟨409, "conflict", none⟩) "p1" none).result
      = .ok (.dict [(.str "status", .num 409), (.str "body", .str "conflict")])) ∧
    ((get_existing_workspaces cfg0 tokRespOk (fun _ => ⟨401, "denied2", none⟩)).result
      = .ok (.dict [(.str "error", .str "401 Unauthorized"), (.str "body", .str "denied2")])) ∧
    ((get_existing_workspaces cfg0 tokRespOk (fun _ => ⟨500, "denied2", none⟩)).result
      = .error (.httpError 500 (FABRIC_BASE ++ "/workspaces"))) :=
  C2_amended_non_success_passthrough cfg0 tokRespOk (.str "tok")
    "n" "w1" "f" "p1" "s1" "d" "lk" "wh" none none none ["Dev"]
    409 500 "conflict" "denied2" none none rfl rfl rfl
    (by decide) (by decide) (by decide) (by decide)

/-- Counterexample to C4 as stated: a 2xx identity response whose
`access_token` field is present (but the empty string) does not yield a
token — `if not token` treats it as missing and the call fails. -/
theorem C4_counterexample_empty_access_token :
    get_access_token cfg0 ⟨200, "tokbody", some (.dict [(.str "access_token", .str "")])⟩
      = .error (.runtimeError
          "No access_token in response: \x7b\"access_token\": \"\"\x7d") := rfl

/-- C4 (amended): `get_access_token` returns a token exactly when the
identity response's status is outside 400-599 and its parsed body is an
object with a truthy (nonempty) `access_token`; on a 400-599 status it
fails with a message carrying the HTTP status and the response body; on a
passing status whose body lacks a truthy `access_token` it fails carrying
the dumped response body; and the result never depends on the client
secret (so the secret cannot appear in any failure message). -/
theorem C4_amended_token_acquisition
    (cfg : Config) (resp respE respB : HttpResponse) (secret' : String)
    (fsB : List (JVal × JVal))
    (hE1 : 400 ≤ respE.status) (hE2 : respE.status < 600)
    (hB1 : ¬(400 ≤ respB.status ∧ respB.status < 600))
    (hB2 : respB.jsonBody = some (.dict fsB))
    (hB3 : ((dlookup fsB (.str "access_token")).getD .null).truthy = false) :
    ((∃ t, get_access_token cfg resp = .ok t) ↔
      (¬(400 ≤ resp.status ∧ resp.status < 600) ∧
       ∃ fs, resp.jsonBody = some (.dict fs) ∧
         ((dlookup fs (.str "access_token")).getD .null).truthy = true)) ∧
    (get_access_token cfg respE
      = .error (.runtimeError (tokenFailMsg cfg respE.status respE.text))) ∧
    (∃ p q, tokenFailMsg cfg respE.status respE.text
      = p ++ toString respE.status ++ q) ∧
    (∃ p q, tokenFailMsg cfg respE.status respE.text = p ++ respE.text ++ q) ∧
    (get_access_token cfg respB = .error (.runtimeError
      ("No access_token in response: " ++ dumps (.dict fsB)))) ∧
    (get_access_token ⟨cfg.TENANT_ID, cfg.CLIENT_ID, secret', cfg.USER_OBJECT_ID,
        cfg.CAPACITY_ID, cfg.ENV_SOURCE⟩ resp = get_access_token cfg resp) := by
  have herrE : isErrorStatus respE.status = true := isErrorStatus_true_of hE1 hE2
  have herrB : isErrorStatus respB.status = false := by
    rcases h : isErrorStatus respB.status
    · rfl
    · exact absurd (isErrorStatus_iff.1 h) hB1
  refine ⟨?_, ?_, ?_, ?_, ?_, ?_⟩
  · constructor
    · rintro ⟨t, ht⟩
      rcases herr : isErrorStatus resp.status
      · refine ⟨fun hc => by simp [isErrorStatus_iff.2 hc] at herr, ?_⟩
        rcases hj : resp.jsonBody with _ | data
        · simp [get_access_token, herr, hj] at ht
        · cases data <;> simp [get_access_token, herr, hj, pyGet] at ht
          rename_i fs
          refine ⟨fs, rfl, ?_⟩
          rcases htr : ((dlookup fs (.str "access_token")).getD .null).truthy
          · simp [htr] at ht
          · rfl
      · simp [get_access_token, herr] at ht
    · rintro ⟨hstat, fs, hj, htr⟩
      have herr : isErrorStatus resp.status = false := by
        rcases h : isErrorStatus resp.status
        · rfl
        · exact absurd (isErrorStatus_iff.1 h) hstat
      exact ⟨(dlookup fs (.str "access_token")).getD .null,
        by simp [get_access_token, herr, hj, pyGet, htr]⟩
  · simp [get_access_token, herrE]
  · refine ⟨"Token request failed: " ++ httpErrorText respE.status (tokenUrl cfg) ++ "\n"
      ++ "Status=",
      "\n" ++ "Body=" ++ respE.text ++ "\n" ++ "Tenant=" ++ cfg.TENANT_ID
      ++ " ClientId=" ++ cfg.CLIENT_ID.take 6 ++ "... " ++ "EnvSource="
      ++ cfg.ENV_SOURCE, ?_⟩
    simp [tokenFailMsg, String.append_assoc]
  · refine ⟨"Token request failed: " ++ httpErrorText respE.status (tokenUrl cfg) ++ "\n"
      ++ "Status=" ++ toString respE.status ++ "\n" ++ "Body=",
      "\n" ++ "Tenant=" ++ cfg.TENANT_ID ++ " ClientId=" ++ cfg.CLIENT_ID.take 6
      ++ "... " ++ "EnvSource=" ++ cfg.ENV_SOURCE, ?_⟩
    simp [tokenFailMsg, String.append_assoc]
  · simp [get_access_token, herrB, hB2, pyGet, hB3]
  · rfl

/-- Witness for the amended C4 at concrete responses: a 401 identity
failure, a 2xx body without a token, and a secret swap. -/
theorem C4_amended_witness :
    ((∃ t, get_access_token cfg0 tokRespOk = .ok t) ↔
      (¬(400 ≤ tokRespOk.status ∧ tokRespOk.status < 600) ∧
       ∃ fs, tokRespOk.jsonBody = some (.dict fs) ∧
         ((dlookup fs (.str "access_token")).getD .null).truthy = true)) ∧
    (get_access_token cfg0 ⟨401, "denied", none⟩
      = .error (.runtimeError (tokenFailMsg cfg0 401 "denied"))) ∧
    (∃ p q, tokenFailMsg cfg0 401 "denied" = p ++ toString 401 ++ q) ∧
    (∃ p q, tokenFailMsg cfg0 401 "denied" = p ++ "denied" ++ q) ∧
    (get_access_token cfg0 ⟨200, "nb", some (.dict [])⟩ = .error (.runtimeError
      ("No access_token in response: " ++ dumps (.dict [])))) ∧
    (get_access_token ⟨cfg0.TENANT_ID, cfg0.CLIENT_ID, "other-secret",
        cfg0.USER_OBJECT_ID, cfg0.CAPACITY_ID, cfg0.ENV_SOURCE⟩ tokRespOk
      = get_access_token cfg0 tokRespOk) :=
  C4_amended_token_acquisition cfg0 tokRespOk ⟨401, "denied", none⟩
    ⟨200, "nb", some (.dict [])⟩ "other-secret" []
    (by decide) (by decide) (by decide) rfl rfl

/-- C3: on a 2xx upstream payload whose `value` array entries carry
`displayName` and `id` (pairwise-distinct names), list-workspaces returns
the displayName → id mapping built from that array in order; an empty or
missing `value` array yields the empty mapping. -/
theorem C3_list_workspaces_mapping
    (cfg : Config) (tokenResp : HttpResponse) (tok : JVal)
    (s : Nat) (b : String) (fs fsEmp fsMiss : List (JVal × JVal))
    (entries : List JVal) (pairs : List (String × JVal))
    (htok : get_access_token cfg tokenResp = .ok tok)
    (h2xx : 200 ≤ s ∧ s < 300)
    (hval : dlookup fs (.str "value") = some (.arr entries))
    (hrel : List.Forall₂ EntryPair entries pairs)
    (hnodup : (pairs.map Prod.fst).Nodup)
    (hemp : dlookup fsEmp (.str "value") = some (.arr []))
    (hmiss : dlookup fsMiss (.str "value") = none) :
    ((get_existing_workspaces cfg tokenResp (fun _ => ⟨s, b, some (.dict fs)⟩)).result
      = .ok (.dict (pairs.map fun p => (JVal.str p.1, p.2)))) ∧
    ((get_existing_workspaces cfg tokenResp (fun _ => ⟨s, b, some (.dict fsEmp)⟩)).result
      = .ok (.dict [])) ∧
    ((get_existing_workspaces cfg tokenResp (fun _ => ⟨s, b, some (.dict fsMiss)⟩)).result
      = .ok (.dict [])) := by
  obtain ⟨hlo, hhi⟩ := h2xx
  have h401 : s ≠ 401 := by omega
  have herr : isErrorStatus s = false := isErrorStatus_false_of_lt (by omega)
  have hfold := nameIdFold_eq hrel hnodup []
    (fun q hq => absurd hq (List.not_mem_nil q))
  refine ⟨?_, ?_, ?_⟩
  · simp [get_existing_workspaces, htok, h401, herr, pyGetD, hval, nameIdMap,
      pyIter, hfold]
  · simp [get_existing_workspaces, htok, h401, herr, pyGetD, hemp, nameIdMap,
      pyIter, nameIdFold]
  · simp [get_existing_workspaces, htok, h401, herr, pyGetD, hmiss, nameIdMap,
      pyIter, nameIdFold]

/-- Witness for C3 at the spec's example payload
`{"value":[{"displayName":"A","id":"1"},{"displayName":"B","id":"2"}]}`. -/
theorem C3_witness :
    ((get_existing_workspaces cfg0 tokRespOk (fun _ => ⟨200, "wb",
        some (.dict [(.str "value", .arr
          [.dict [(.str "displayName", .str "A"), (.str "id", .str "1")],
           .dict [(.str "displayName", .str "B"), (.str "id", .str "2")]])])⟩)).result
      = .ok (.dict ([("A", JVal.str "1"), ("B", JVal.str "2")].map
          fun p => (JVal.str p.1, p.2)))) ∧
    ((get_existing_workspaces cfg0 tokRespOk (fun _ => ⟨200, "wb",
        some (.dict [(.str "value", .arr [])])⟩)).result = .ok (.dict [])) ∧
    ((get_existing_workspaces cfg0 tokRespOk (fun _ => ⟨200, "wb",
        some (.dict [])⟩)).result = .ok (.dict [])) :=
  C3_list_workspaces_mapping cfg0 tokRespOk (.str "tok") 200 "wb"
    [(.str "value", .arr
      [.dict [(.str "displayName", .str "A"), (.str "id", .str "1")],
       .dict [(.str "displayName", .str "B"), (.str "id", .str "2")]])]
    [(.str "value", .arr [])] []
    [.dict [(.str "displayName", .str "A"), (.str "id", .str "1")],
     .dict [(.str "displayName", .str "B"), (.str "id", .str "2")]]
    [("A", JVal.str "1"), ("B", JVal.str "2")]
    rfl (by decide) rfl
    (List.Forall₂.cons ⟨rfl, rfl⟩ (List.Forall₂.cons ⟨rfl, rfl⟩ List.Forall₂.nil))
    (by decide) rfl rfl

/-- C5: create deployment pipeline materializes each input stage name `s`,
in order, as `{displayName: s, description: "s stage", isPublic: false}`
in the request body; and on a 201 response returns the pipeline id together
with the displayName → id mapping the upstream assigned. -/
theorem C5_pipeline_stage_body_and_mapping
    (cfg : Config) (tokenResp : HttpResponse) (tok : JVal)
    (name desc b : String) (stages : List String)
    (upstream : HttpRequest → HttpResponse)
    (fs : List (JVal × JVal)) (entries : List JVal)
    (pairs : List (String × JVal)) (pid : JVal)
    (htok : get_access_token cfg tokenResp = .ok tok)
    (hstages : dlookup fs (.str "stages") = some (.arr entries))
    (hrel : List.Forall₂ EntryPair entries pairs)
    (hnodup : (pairs.map Prod.fst).Nodup)
    (hpid : dlookup fs (.str "id") = some pid) :
    ((create_deployment_pipeline cfg tokenResp upstream name desc stages).trace
      = [tokenEvent cfg, .api ⟨.post, FABRIC_BASE ++ "/deploymentPipelines",
          some (.dict [(.str "displayName", .str name),
                       (.str "description", .str desc),
                       (.str "stages", .arr (stages.map fun st =>
                          .dict [(.str "displayName", .str st),
                                 (.str "description", .str (st ++ " stage")),
                                 (.str "isPublic", .jbool false)]))]),
          headersJson tok⟩]) ∧
    ((create_deployment_pipeline cfg tokenResp (fun _ => ⟨201, b, some (.dict fs)⟩)
        name desc stages).result
      = .ok (.dict [(.str "pipeline_id", pid),
                    (.str "stages", .dict (pairs.map fun p => (JVal.str p.1, p.2)))])) := by
  have hfold := nameIdFold_eq hrel hnodup []
    (fun q hq => absurd hq (List.not_mem_nil q))
  refine ⟨?_, ?_⟩
  · simp [create_deployment_pipeline, htok, stageObj]
  · simp [create_deployment_pipeline, htok, pyGetD, hstages, nameIdMap, pyIter,
      hfold, pyGet, hpid]

/-- Witness for C5 at the spec's example: stages `["Dev","Test","Prod"]`
with upstream-assigned ids `d1,t1,p1`. -/
theorem C5_witness :
    ((create_deployment_pipeline cfg0 tokRespOk someTransport "pl" "dsc"
        ["Dev", "Test", "Prod"]).trace
      = [tokenEvent cfg0, .api ⟨.post, FABRIC_BASE ++ "/deploymentPipelines",
          some (.dict [(.str "displayName", .str "pl"),
                       (.str "description", .str "dsc"),
                       (.str "stages", .arr (["Dev", "Test", "Prod"].map fun st =>
                          .dict [(.str "displayName", .str st),
                                 (.str "description", .str (st ++ " stage")),
                                 (.str "isPublic", .jbool false)]))]),
          headersJson (.str "tok")⟩]) ∧
    ((create_deployment_pipeline cfg0 tokRespOk (fun _ => ⟨201, "pb",
        some (.dict [(.str "id", .str "pl-1"),
                     (.str "stages", .arr
          [.dict [(.str "displayName", .str "Dev"), (.str "id", .str "d1")],
           .dict [(.str "displayName", .str "Test"), (.str "id", .str "t1")],
           .dict [(.str "displayName", .str "Prod"), (.str "id", .str "p1")]])])⟩)
        "pl" "dsc" ["Dev", "Test", "Prod"]).result
      = .ok (.dict [(.str "pipeline_id", .str "pl-1"),
                    (.str "stages", .dict ([("Dev", JVal.str "d1"),
                      ("Test", JVal.str "t1"), ("Prod", JVal.str "p1")].map
                        fun p => (JVal.str p.1, p.2)))])) :=
  C5_pipeline_stage_body_and_mapping cfg0 tokRespOk (.str "tok") "pl" "dsc" "pb"
    ["Dev", "Test", "Prod"] someTransport
    [(.str "id", .str "pl-1"),
     (.str "stages", .arr
       [.dict [(.str "displayName", .str "Dev"), (.str "id", .str "d1")],
        .dict [(.str "displayName", .str "Test"), (.str "id", .str "t1")],
        .dict [(.str "displayName", .str "Prod"), (.str "id", .str "p1")]])]
    [.dict [(.str "displayName", .str "Dev"), (.str "id", .str "d1")],
     .dict [(.str "displayName", .str "Test"), (.str "id", .str "t1")],
     .dict [(.str "displayName", .str "Prod"), (.str "id", .str "p1")]]
    [("Dev", JVal.str "d1"), ("Test", JVal.str "t1"), ("Prod", JVal.str "p1")]
    (.str "pl-1") rfl rfl
    (List.Forall₂.cons ⟨rfl, rfl⟩ (List.Forall₂.cons ⟨rfl, rfl⟩
      (List.Forall₂.cons ⟨rfl, rfl⟩ List.Forall₂.nil)))
    (by decide) rfl

end Fabric
